import Mathlib

/-!
Shallow embedding of the `chatbot-maker` repository.

The frontend sources are embedded directly: `chatbot-frontend/src/lib/api.ts`
(the `ingestCSV` and `chat` fetch helpers), the two versions of the chat page
concatenated in `chatbot-frontend/src/app/page.tsx` (state, `handleUpload`,
`handleSend`), and the `ChatResponse` / `ChatHit` type declarations.

The Python backend (`app.py`, `rag_core.py`) is not among the sources; its
ingestion deduplication, store invariant and MMR retrieval are modelled from
the specification, with each such definition marked `Modelled from the spec:`.

JavaScript semantics are modelled as follows: a JS number appearing in this
frontend is either an integer or `NaN` (what `parseInt` yields on non-numeric
text), so it is embedded as `Option Int` with `none` for `NaN`; string
falsiness (`s || fallback`) is the test `s = ""`; `String.prototype.trim` and
`parseInt` are embedded over their ASCII-whitespace behavior; message ids
produced by `crypto.randomUUID()` carry no information used anywhere and are
omitted from the `Message` model; `fetch` is modelled by passing the handler a
response function, and a handler returns both its final component state and
the request it issued (`none` when no network request was made).
-/

namespace ChatbotMaker

/-- JavaScript numbers as they occur in this frontend: an integer, or `none`
standing for `NaN`. -/
abbrev JsNumber := Option Int

/-- Whitespace recognized by the embedded `trim` / `parseInt` (the ASCII
whitespace class). -/
def isJsSpace (c : Char) : Bool :=
  c = ' ' || c = '\t' || c = '\n' || c = '\r' || c = '\x0b' || c = '\x0c'

/-- Embedding of `String.prototype.trim`: drop leading and trailing
whitespace. -/
def jsTrim (s : String) : String :=
  String.mk (((s.data.dropWhile isJsSpace).reverse.dropWhile isJsSpace).reverse)

/-- Value of a non-empty digit string. -/
def digitsVal (ds : List Char) : Nat :=
  ds.foldl (fun n c => 10 * n + (c.toNat - 48)) 0

/-- Embedding of `parseInt(s, 10)`: skip leading whitespace, read an optional
sign and the longest digit prefix; `NaN` (`none`) when no digit is found. -/
def parseIntJS (s : String) : JsNumber :=
  match s.data.dropWhile isJsSpace with
  | '-' :: rest =>
      let ds := rest.takeWhile Char.isDigit
      if ds.isEmpty then none else some (-(digitsVal ds : Int))
  | '+' :: rest =>
      let ds := rest.takeWhile Char.isDigit
      if ds.isEmpty then none else some ((digitsVal ds : Int))
  | l =>
      let ds := l.takeWhile Char.isDigit
      if ds.isEmpty then none else some ((digitsVal ds : Int))

/-- Embedding of `String(b)` on a JS boolean. -/
def jsStringOfBool (b : Bool) : String :=
  if b then "true" else "false"

/-- JSON values as produced by `JSON.stringify` on the chat request body
(`JSON.stringify` renders `NaN` as `null`). -/
inductive Json where
  | null : Json
  | str : String → Json
  | num : Int → Json
  | obj : List (String × Json) → Json

/-- How `JSON.stringify` renders a JS number field. -/
def jsNumToJson : JsNumber → Json
  | some n => Json.num n
  | none => Json.null

/-- An uploaded file object (name and raw content). -/
structure JsFile where
  name : String
  content : String
deriving DecidableEq

/-- A value appended to a `FormData`. -/
inductive FormValue where
  | text : String → FormValue
  | file : JsFile → FormValue
deriving DecidableEq

/-- A `fetch` call carrying a JSON body (the `/v1/chat` request). -/
structure JsonRequest where
  url : String
  method : String
  contentType : String
  body : Json

/-- A `fetch` call carrying multipart form data (the `/v1/ingest` request). -/
structure FormRequest where
  url : String
  method : String
  parts : List (String × FormValue)

/-- An HTTP response as the fetch helpers observe it: the `ok` flag, the body
as text (`res.text()`), and the body as parsed JSON (`res.json()`), typed at
the shape the caller declares. -/
structure HttpResponse (α : Type) where
  ok : Bool
  bodyText : String
  bodyJson : α

/-- From `src/types/api.ts`: `ChatHit`. -/
structure ChatHit where
  score : ℚ
  data_type : String
  title : String
  keywords : String
deriving DecidableEq

/-- The citation entries of `ChatResponse`: `{ data_type, title }`. -/
structure Citation where
  data_type : String
  title : String
deriving DecidableEq

/-- From `src/types/api.ts`: `ChatResponse`. -/
structure ChatResponse where
  company : String
  query : String
  top_k : Int
  answer : String
  citations : List Citation
  hits : List ChatHit
deriving DecidableEq

/-- Shape of the `/v1/ingest` response body the frontend consumes
(`{ ok, company, records }`, per the README and `handleUpload`). -/
structure IngestResponse where
  ok : Bool
  company : String
  records : Int
deriving DecidableEq

/-- From `api.ts`: the request built by
`chat(company, query, top_k = 3)` — a POST to `${API_BASE}/v1/chat` with
`Content-Type: application/json` and body `JSON.stringify({ company, query, top_k })`. -/
def chat (apiBase company query : String) (top_k : JsNumber := some 3) : JsonRequest :=
  { url := apiBase ++ "/v1/chat"
    method := "POST"
    contentType := "application/json"
    body := Json.obj
      [("company", Json.str company), ("query", Json.str query),
       ("top_k", jsNumToJson top_k)] }

/-- From `api.ts`: how `chat` treats the response —
`if (!res.ok) throw new Error(await res.text()); return res.json();`. -/
def chatResult (res : HttpResponse ChatResponse) : Except String ChatResponse :=
  if res.ok then Except.ok res.bodyJson else Except.error res.bodyText

/-- From `api.ts`: the request built by `ingestCSV(company, file, reset)` — a
POST to `${API_BASE}/v1/ingest` whose `FormData` gets `company`, `reset`
(via `String(reset)`) and `file` appended in that order. -/
def ingestCSV (apiBase company : String) (f : JsFile) (reset : Bool) : FormRequest :=
  { url := apiBase ++ "/v1/ingest"
    method := "POST"
    parts := [("company", FormValue.text company),
              ("reset", FormValue.text (jsStringOfBool reset)),
              ("file", FormValue.file f)] }

/-- From `api.ts`: how `ingestCSV` treats the response —
`if (!res.ok) throw new Error(await res.text()); return res.json();`. -/
def ingestResult (res : HttpResponse IngestResponse) : Except String IngestResponse :=
  if res.ok then Except.ok res.bodyJson else Except.error res.bodyText

/-- From `page.tsx`: a chat `Message` (the nondeterministic
`crypto.randomUUID()` id is not used by any behavior and is omitted). -/
structure Message where
  role : String
  content : String
  citations : Option (List Citation)
  hits : Option (List ChatHit)
deriving DecidableEq

/-- From `page.tsx`: the `Home` component state shared by both page versions
(the second version's extra `sidebarOpen` flag never influences the handlers
and is omitted). -/
structure HomeState where
  company : String
  file : Option JsFile
  reset : Bool
  ingestStatus : Option String
  query : String
  topK : JsNumber
  loading : Bool
  messages : List Message
deriving DecidableEq

/-- From `page.tsx`: the initial `useState` values of `Home`
(both versions). -/
def initialHomeState : HomeState :=
  { company := "instagram"
    file := none
    reset := true
    ingestStatus := none
    query := ""
    topK := some 3
    loading := false
    messages := [] }

/-- From `page.tsx`: the `min={1}` attribute declared on the top-k number
input (both versions). -/
def topKInputMin : Int := 1

/-- From `page.tsx`: the `max={20}` attribute declared on the top-k number
input (both versions). -/
def topKInputMax : Int := 20

/-- From `page.tsx`: the `onChange` handler of the top-k input,
`setTopK(parseInt(e.target.value || "3", 10))` (both versions). -/
def topKFromInput (v : String) : JsNumber :=
  parseIntJS (if v = "" then "3" else v)

/-- From `page.tsx`: the user message appended by `handleSend`. -/
def userMessage (q : String) : Message :=
  { role := "user", content := q, citations := none, hits := none }

/-- From `page.tsx`: the assistant message appended on a successful chat
response — content `res.answer || "(no answer)"` with the response's
citations and hits attached (identical in both versions). -/
def assistantMessage (res : ChatResponse) : Message :=
  { role := "assistant"
    content := if res.answer = "" then "(no answer)" else res.answer
    citations := some res.citations
    hits := some res.hits }

/-- From `page.tsx`, first version: the assistant message appended in the
`catch` branch of `handleSend` — content
`` `❌ Error: ${err.message || "request failed"}` ``. -/
def errorChatMessageV1 (msg : String) : Message :=
  { role := "assistant"
    content := "❌ Error: " ++ (if msg = "" then "request failed" else msg)
    citations := none
    hits := none }

/-- From `page.tsx`, second version: the assistant message appended in the
`catch` branch of `handleSend` — the thrown value is always the
`Error(bodyText)` from `api.ts`, so `err instanceof Error ? err.message :
"request failed"` is the error message itself, even when empty. -/
def errorChatMessageV2 (msg : String) : Message :=
  { role := "assistant"
    content := "❌ Error: " ++ msg
    citations := none
    hits := none }

/-- From `page.tsx`: the success status text set by `handleUpload`
(identical in both versions):
`` `✅ Ingested ${res.records} rows for "${res.company}".` ``. -/
def uploadSuccessStatus (res : IngestResponse) : String :=
  "✅ Ingested " ++ toString res.records ++ " rows for \"" ++ res.company ++ "\"."

/-- From `page.tsx`, first version: `handleSend`, as a function of the state
and of the network, returning the final state together with the chat request
issued (`none` when the trimmed query is empty and the handler returns
early). The dead local `citationsText` is computed and never used, and
`setLoading(false)` in `finally` makes the final `loading` false on both
branches. -/
def handleSendV1 (apiBase : String) (st : HomeState)
    (respond : JsonRequest → HttpResponse ChatResponse) :
    HomeState × Option JsonRequest :=
  if jsTrim st.query = "" then (st, none)
  else
    let q := jsTrim st.query
    let sent : HomeState :=
      { st with messages := st.messages ++ [userMessage q], query := "", loading := true }
    let req := chat apiBase (jsTrim st.company) q st.topK
    match chatResult (respond req) with
    | Except.ok res =>
        ({ sent with messages := sent.messages ++ [assistantMessage res]
                     loading := false }, some req)
    | Except.error msg =>
        ({ sent with messages := sent.messages ++ [errorChatMessageV1 msg]
                     loading := false }, some req)

/-- From `page.tsx`, second version: `handleSend`; identical to the first
version except for the error-message text in the `catch` branch. -/
def handleSendV2 (apiBase : String) (st : HomeState)
    (respond : JsonRequest → HttpResponse ChatResponse) :
    HomeState × Option JsonRequest :=
  if jsTrim st.query = "" then (st, none)
  else
    let q := jsTrim st.query
    let sent : HomeState :=
      { st with messages := st.messages ++ [userMessage q], query := "", loading := true }
    let req := chat apiBase (jsTrim st.company) q st.topK
    match chatResult (respond req) with
    | Except.ok res =>
        ({ sent with messages := sent.messages ++ [assistantMessage res]
                     loading := false }, some req)
    | Except.error msg =>
        ({ sent with messages := sent.messages ++ [errorChatMessageV2 msg]
                     loading := false }, some req)

/-- From `page.tsx`, first version: `handleUpload`, as a function of the
state and of the network, returning the final state and the ingest request
issued (`none` when no file is selected). The transient
"Uploading & indexing…" status is overwritten before the handler finishes;
the final status is modelled. -/
def handleUploadV1 (apiBase : String) (st : HomeState)
    (respond : FormRequest → HttpResponse IngestResponse) :
    HomeState × Option FormRequest :=
  match st.file with
  | none => ({ st with ingestStatus := some "Please choose a CSV file first." }, none)
  | some f =>
      let req := ingestCSV apiBase (jsTrim st.company) f st.reset
      match ingestResult (respond req) with
      | Except.ok res =>
          ({ st with ingestStatus := some (uploadSuccessStatus res) }, some req)
      | Except.error msg =>
          let status := "❌ " ++ (if msg = "" then "Upload failed" else msg)
          ({ st with ingestStatus := some status }, some req)

/-- From `page.tsx`, second version: `handleUpload`; identical to the first
version except that the `catch` branch shows the caught error message as-is
(the thrown value is always an `Error`). -/
def handleUploadV2 (apiBase : String) (st : HomeState)
    (respond : FormRequest → HttpResponse IngestResponse) :
    HomeState × Option FormRequest :=
  match st.file with
  | none => ({ st with ingestStatus := some "Please choose a CSV file first." }, none)
  | some f =>
      let req := ingestCSV apiBase (jsTrim st.company) f st.reset
      match ingestResult (respond req) with
      | Except.ok res =>
          ({ st with ingestStatus := some (uploadSuccessStatus res) }, some req)
      | Except.error msg =>
          ({ st with ingestStatus := some ("❌ " ++ msg) }, some req)

/-- Modelled from the spec: an embedding vector; the backend that computes
real vectors is not among the sources, so vectors are rational-valued lists
pre-normalized by assumption (spec §4.4: cosine reduces to a dot product). -/
abbrev Vec := List ℚ

/-- Modelled from the spec (§3): a raw input Row — `data_type`, `title`,
`content`, `keywords` (the namespace is the store the ingestion targets). -/
structure Row where
  data_type : String
  title : String
  content : String
  keywords : String
deriving DecidableEq

/-- Modelled from the spec (§3, §4.1): the identity key of a Row is a
deterministic function of the `(data_type, title, content)` triple only;
a hash is modelled by the injective triple itself. -/
def identityKey (r : Row) : String × String × String :=
  (r.data_type, r.title, r.content)

/-- Modelled from the spec (§3): a Chunk — the indexed unit derived from a
Row: identity key plus the row's fields. -/
structure Chunk where
  key : String × String × String
  data_type : String
  title : String
  content : String
  keywords : String
deriving DecidableEq

/-- Modelled from the spec: the Chunk built from an accepted Row. -/
def mkChunk (r : Row) : Chunk :=
  { key := identityKey r
    data_type := r.data_type
    title := r.title
    content := r.content
    keywords := r.keywords }

/-- Modelled from the spec (§6): one line of the metadata artifact. -/
structure MetaEntry where
  data_type : String
  title : String
  keywords : String
deriving DecidableEq

/-- Modelled from the spec: the metadata entry written for an accepted Row. -/
def mkMeta (r : Row) : MetaEntry :=
  { data_type := r.data_type, title := r.title, keywords := r.keywords }

/-- Modelled from the spec (§3): a Company Store — an append-ordered sequence
of Chunks, the position-indexed array of their vectors, and the metadata
entries (one per chunk, same order). -/
structure Store where
  chunks : List Chunk
  vectors : List Vec
  meta : List MetaEntry
deriving DecidableEq

/-- Modelled from the spec: the empty store of a fresh namespace. -/
def emptyStore : Store :=
  { chunks := [], vectors := [], meta := [] }

/-- Modelled from the spec (§4.2): `reset()` discards all state for the
namespace. -/
def resetStore (_s : Store) : Store := emptyStore

/-- Modelled from the spec (§3): the store's set of known identity keys
(derived here from the chunk sequence). -/
def knownKeys (s : Store) : List (String × String × String) :=
  s.chunks.map Chunk.key

/-- Modelled from the spec (§4.3): keep, in order, the rows whose identity
key is neither already known nor seen earlier in the same batch. -/
def dedupeRows (known : List (String × String × String)) :
    List Row → List Row
  | [] => []
  | r :: rest =>
      if identityKey r ∈ known then dedupeRows known rest
      else r :: dedupeRows (identityKey r :: known) rest

/-- Modelled from the spec (§4.3): the Ingestion Pipeline on one batch —
reset first when requested, deduplicate against the store and the batch,
embed the surviving rows through the embedding capability `embed`, append
chunks, vectors and metadata, and return the new store with the count of
newly added records. -/
def ingest (embed : String → Vec) (s : Store) (rows : List Row)
    (reset : Bool) : Store × Nat :=
  let s0 := if reset then emptyStore else s
  let fresh := dedupeRows (knownKeys s0) rows
  ({ chunks := s0.chunks ++ fresh.map mkChunk
     vectors := s0.vectors ++ fresh.map (fun r => embed r.content)
     meta := s0.meta ++ fresh.map mkMeta }, fresh.length)

/-- Modelled from the spec (§3, §8): the Company Store invariant — vector,
chunk and metadata counts agree, and the vector at position `i` is the
embedding of the chunk at position `i`. -/
def storeConsistent (embed : String → Vec) (s : Store) : Prop :=
  s.vectors.length = s.chunks.length ∧
  s.meta.length = s.chunks.length ∧
  ∀ (i : Nat) (h1 : i < s.vectors.length) (h2 : i < s.chunks.length),
    s.vectors.get ⟨i, h1⟩ = embed (s.chunks.get ⟨i, h2⟩).content

/-- Modelled from the spec (§4.4): a retrieval candidate — a stored vector
together with its relevance (cosine similarity to the query). -/
structure Cand where
  vec : Vec
  rel : ℚ
deriving DecidableEq

/-- Modelled from the spec (§4.4): dot product of pre-normalized vectors
(the cosine similarity). -/
def dot : Vec → Vec → ℚ
  | [], _ => 0
  | _, [] => 0
  | a :: as, b :: bs => a * b + dot as bs

/-- Modelled from the spec (§4.4): a candidate's maximum similarity to any
already-selected candidate, `0` when nothing is selected yet. -/
def maxSimTo (c : Cand) : List Cand → ℚ
  | [] => 0
  | s :: rest => (rest.map (fun x => dot c.vec x.vec)).foldl max (dot c.vec s.vec)

/-- Modelled from the spec (§4.4): the MMR objective
`λ * relevance(c) - (1 - λ) * max_similarity(c, selected)`. -/
def mmrScore (lam : ℚ) (sel : List Cand) (c : Cand) : ℚ :=
  lam * c.rel - (1 - lam) * maxSimTo c sel

/-- Modelled from the spec (§4.4): pick from the remaining candidates the one
maximizing the MMR objective, ties broken by higher original relevance, then
by earlier insertion order; returns the pick and the untouched remainder. -/
def pickMMR (lam : ℚ) (sel : List Cand) : List Cand → Option (Cand × List Cand)
  | [] => none
  | c :: cs =>
      match pickMMR lam sel cs with
      | none => some (c, [])
      | some (b, rest) =>
          if mmrScore lam sel b > mmrScore lam sel c ∨
             (mmrScore lam sel b = mmrScore lam sel c ∧ b.rel > c.rel)
          then some (b, c :: rest)
          else some (c, cs)

/-- Modelled from the spec (§4.4): MMR selection — repeatedly pick the
best-scoring remaining candidate until `k` are selected or candidates are
exhausted. -/
def mmrSelect (lam : ℚ) (k : Nat) (sel : List Cand) (pool : List Cand) :
    List Cand :=
  match k with
  | 0 => []
  | k + 1 =>
      match pickMMR lam sel pool with
      | none => []
      | some (b, rest) => b :: mmrSelect lam k (sel ++ [b]) rest

/-- Modelled from the spec (§4.4): the Retriever's MMR re-ranking of its
candidate pool down to `top_k`. -/
def mmr (lam : ℚ) (k : Nat) (pool : List Cand) : List Cand :=
  mmrSelect lam k [] pool

/-- Modelled from the spec (§4.4 step 3): plain similarity-ranked top-k
selection from the candidate pool, which is already ordered by similarity
descending with stable ties. -/
def plainTopK (k : Nat) (pool : List Cand) : List Cand :=
  pool.take k

/-- A concrete uploaded CSV file used by concrete instantiations. -/
def fileW : JsFile :=
  { name := "docs.csv", content := "app_name,data_type,title,content,keywords" }

/-- A concrete well-formed chat response body. -/
def chatRespW : ChatResponse :=
  { company := "myco"
    query := "How to log in?"
    top_k := 3
    answer := "Reset your password via email."
    citations := [{ data_type := "faq", title := "Login issue" }]
    hits := [{ score := 9 / 10, data_type := "faq", title := "Login issue",
               keywords := "login,password" }] }

/-- A concrete ok HTTP response for a chat request. -/
def okChatResp : HttpResponse ChatResponse :=
  { ok := true, bodyText := "", bodyJson := chatRespW }

/-- A concrete failed HTTP response with an empty body text. -/
def failChatResp : HttpResponse ChatResponse :=
  { ok := false, bodyText := "", bodyJson := chatRespW }

/-- A concrete ok HTTP response for an ingest request. -/
def okIngestResp : HttpResponse IngestResponse :=
  { ok := true, bodyText := ""
    bodyJson := { ok := true, company := "myco", records := 1 } }

/-- A concrete failed ingest HTTP response with an empty body text. -/
def failIngestResp : HttpResponse IngestResponse :=
  { ok := false, bodyText := ""
    bodyJson := { ok := false, company := "", records := 0 } }

/-- A network that always answers a chat request with `okChatResp`. -/
def chatRespondOk : JsonRequest → HttpResponse ChatResponse := fun _ => okChatResp

/-- A network that always answers a chat request with `failChatResp`. -/
def chatRespondFail : JsonRequest → HttpResponse ChatResponse := fun _ => failChatResp

/-- A network that always answers an ingest request with `okIngestResp`. -/
def ingestRespondOk : FormRequest → HttpResponse IngestResponse := fun _ => okIngestResp

/-- A network that always answers an ingest request with `failIngestResp`. -/
def ingestRespondFail : FormRequest → HttpResponse IngestResponse := fun _ => failIngestResp

/-- A concrete page state with a pending query. -/
def stHello : HomeState := { initialHomeState with query := "hello" }

/-- A concrete page state with a whitespace-only query. -/
def stWhitespace : HomeState := { initialHomeState with query := "   " }

/-- A concrete page state whose top-k field was set by typing `"50"`. -/
def stFifty : HomeState :=
  { initialHomeState with query := "hi", topK := topKFromInput "50" }

/-- A concrete page state with both a pending query and a selected file. -/
def stC8 : HomeState := { initialHomeState with query := "hi", file := some fileW }

/-- A concrete Row (the worked example of spec §8). -/
def rowW : Row :=
  { data_type := "faq", title := "Login issue"
    content := "Reset your password via email.", keywords := "login,password" }

/-- The same Row with different keywords: same identity triple. -/
def rowW2 : Row :=
  { data_type := "faq", title := "Login issue"
    content := "Reset your password via email.", keywords := "login" }

/-- A concrete embedding capability. -/
def embedW : String → Vec := fun _ => [1]

/-- A concrete candidate pool, ordered by relevance descending. -/
def poolW : List Cand :=
  [{ vec := [1, 0], rel := 3 }, { vec := [0, 1], rel := 2 },
   { vec := [1, 1], rel := 2 }]

/-- Dropping while a predicate holds of every element drops everything. -/
theorem dropWhile_all_eq_nil {p : Char → Bool} :
    ∀ l : List Char, (∀ c ∈ l, p c = true) → l.dropWhile p = [] := by
  intro l h
  induction l with
  | nil => rfl
  | cons a t ih =>
      rw [List.dropWhile_cons, if_pos (h a (List.mem_cons_self a t))]
      exact ih fun c hc => h c (List.mem_cons_of_mem a hc)

/-- A string all of whose characters are whitespace trims to the empty
string. -/
theorem jsTrim_eq_empty (s : String) (h : ∀ c ∈ s.data, isJsSpace c = true) :
    jsTrim s = "" := by
  unfold jsTrim
  rw [dropWhile_all_eq_nil s.data h]
  rfl

/-- The chunk built from a row carries the row's identity key. -/
theorem key_mkChunk (r : Row) : (mkChunk r).key = identityKey r := rfl

/-- Every row of a batch ends up, keyed, either among the previously known
keys or among the keys of the deduplicated survivors. -/
theorem dedupe_covers (rows : List Row) :
    ∀ (known : List (String × String × String)) (r : Row), r ∈ rows →
      identityKey r ∈ known ∨
        identityKey r ∈ (dedupeRows known rows).map identityKey := by
  induction rows with
  | nil => intro known r hr; cases hr
  | cons a rest ih =>
      intro known r hr
      by_cases ha : identityKey a ∈ known
      · rw [dedupeRows, if_pos ha]
        rcases List.mem_cons.1 hr with rfl | hr'
        · exact Or.inl ha
        · exact ih known r hr'
      · rw [dedupeRows, if_neg ha]
        rcases List.mem_cons.1 hr with rfl | hr'
        · exact Or.inr (by rw [List.map_cons]; exact List.mem_cons_self _ _)
        · rcases ih (identityKey a :: known) r hr' with h | h
          · rcases List.mem_cons.1 h with heq | hk
            · exact Or.inr (by rw [List.map_cons, heq]; exact List.mem_cons_self _ _)
            · exact Or.inl hk
          · exact Or.inr (by rw [List.map_cons]; exact List.mem_cons_of_mem _ h)

/-- Deduplication against a key set that already covers the whole batch
keeps nothing. -/
theorem dedupe_nil_of_known (rows : List Row) :
    ∀ known, (∀ r ∈ rows, identityKey r ∈ known) →
      dedupeRows known rows = [] := by
  induction rows with
  | nil => intro known _; rfl
  | cons a rest ih =>
      intro known h
      rw [dedupeRows, if_pos (h a (List.mem_cons_self a rest))]
      exact ih known fun r hr => h r (List.mem_cons_of_mem a hr)

/-- The keys known after a non-reset ingestion are the old keys followed by
the keys of the newly accepted rows. -/
theorem knownKeys_ingest (embed : String → Vec) (s : Store) (rows : List Row) :
    knownKeys (ingest embed s rows false).1 =
      knownKeys s ++ (dedupeRows (knownKeys s) rows).map identityKey := by
  simp only [ingest, if_neg (by simp : ¬(false = true)), knownKeys,
    List.map_append, List.map_map]
  rfl

/-- A store satisfying the invariant has its vector array equal to the
pointwise embedding of its chunk sequence. -/
theorem map_of_consistent (embed : String → Vec) (s : Store)
    (h : storeConsistent embed s) :
    s.vectors = s.chunks.map (fun c => embed c.content) := by
  rcases h with ⟨h1, _, h3⟩
  apply List.ext_get
  · rw [List.length_map]; exact h1
  · intro i hi1 hi2
    rw [List.get_map]
    exact h3 i hi1 (by rw [List.length_map] at hi2; exact hi2)

/-- Conversely, a store whose vector array is the pointwise embedding of its
chunks, with matching metadata count, satisfies the invariant. -/
theorem consistent_of_map (embed : String → Vec) (s : Store)
    (hv : s.vectors = s.chunks.map (fun c => embed c.content))
    (hm : s.meta.length = s.chunks.length) :
    storeConsistent embed s := by
  refine ⟨by rw [hv, List.length_map], hm, ?_⟩
  intro i h1 h2
  have h1' : i < (s.chunks.map (fun c => embed c.content)).length := by
    rw [← hv]; exact h1
  calc s.vectors.get ⟨i, h1⟩
      = (s.chunks.map (fun c => embed c.content)).get ⟨i, h1'⟩ :=
        List.get_of_eq hv ⟨i, h1⟩
    _ = embed (s.chunks.get ⟨i, h2⟩).content := by rw [List.get_map]

/-- With weight `λ = 1` the MMR objective is the candidate's relevance. -/
theorem mmrScore_one (sel : List Cand) (c : Cand) : mmrScore 1 sel c = c.rel := by
  simp [mmrScore]

/-- On a relevance-sorted remainder, the `λ = 1` MMR pick is the head. -/
theorem pickMMR_sorted (sel : List Cand) :
    ∀ (c : Cand) (cs : List Cand),
      List.Pairwise (fun a b => b.rel ≤ a.rel) (c :: cs) →
      pickMMR 1 sel (c :: cs) = some (c, cs) := by
  intro c cs
  induction cs generalizing c with
  | nil => intro _; rfl
  | cons d ds ih =>
      intro h
      have hdc : d.rel ≤ c.rel :=
        (List.pairwise_cons.1 h).1 d (List.mem_cons_self d ds)
      have htail : List.Pairwise (fun a b => b.rel ≤ a.rel) (d :: ds) :=
        (List.pairwise_cons.1 h).2
      rw [pickMMR, ih d htail]
      have hcond : ¬(mmrScore 1 sel d > mmrScore 1 sel c ∨
          (mmrScore 1 sel d = mmrScore 1 sel c ∧ d.rel > c.rel)) := by
        rw [mmrScore_one, mmrScore_one]
        rintro (hlt | ⟨-, hlt⟩) <;> exact absurd hlt (not_lt.2 hdc)
      exact if_neg hcond

/-- On a relevance-sorted pool, `λ = 1` MMR selection is a `take`. -/
theorem mmrSelect_one (k : Nat) :
    ∀ (pool sel : List Cand),
      List.Pairwise (fun a b => b.rel ≤ a.rel) pool →
      mmrSelect 1 k sel pool = pool.take k := by
  induction k with
  | zero => intro pool sel _; rfl
  | succ k ih =>
      intro pool sel h
      cases pool with
      | nil => rfl
      | cons c cs =>
          rw [mmrSelect, pickMMR_sorted sel c cs h, List.take_succ_cons]
          exact congrArg (c :: ·) (ih cs (sel ++ [c]) (List.pairwise_cons.1 h).2)

/-- C1: every invocation `chat(company, query, top_k)` issues a POST to
`${API_BASE}/v1/chat` with Content-Type `application/json` and a JSON body
holding exactly the fields `company`, `query` and `top_k`; on an ok response
the call returns the parsed body, typed at the shape declared by
`ChatResponse` and `ChatHit`. -/
theorem C1_chat_request_shape (apiBase company query : String) (top_k : JsNumber)
    (res : HttpResponse ChatResponse) (hok : res.ok = true) :
    (chat apiBase company query top_k).method = "POST" ∧
    (chat apiBase company query top_k).url = apiBase ++ "/v1/chat" ∧
    (chat apiBase company query top_k).contentType = "application/json" ∧
    (chat apiBase company query top_k).body =
      Json.obj [("company", Json.str company), ("query", Json.str query),
                ("top_k", jsNumToJson top_k)] ∧
    chatResult res = Except.ok res.bodyJson := by
  refine ⟨rfl, rfl, rfl, rfl, ?_⟩
  simp [chatResult, hok]

/-- C1 witness: the theorem at a concrete invocation and ok response. -/
theorem C1_witness :
    okChatResp.ok = true ∧ chatResult okChatResp = Except.ok okChatResp.bodyJson :=
  ⟨rfl, (C1_chat_request_shape "http://127.0.0.1:8000" "myco" "How to log in?"
      (some 3) okChatResp rfl).2.2.2.2⟩

/-- C2: every invocation `ingestCSV(company, file, reset)` issues a POST to
`${API_BASE}/v1/ingest` as form data with exactly the fields `company`,
`reset` (the boolean rendered `"true"`/`"false"`) and `file`, in that order;
on an ok response it returns the parsed JSON body, from whose `records` and
`company` fields the upload handler builds its ingested-row-count status. -/
theorem C2_ingest_request_shape (apiBase company : String) (f : JsFile)
    (reset : Bool) (res : HttpResponse IngestResponse) (st : HomeState)
    (hok : res.ok = true) (hfile : st.file = some f) :
    (ingestCSV apiBase company f reset).method = "POST" ∧
    (ingestCSV apiBase company f reset).url = apiBase ++ "/v1/ingest" ∧
    (ingestCSV apiBase company f reset).parts =
      [("company", FormValue.text company),
       ("reset", FormValue.text (if reset then "true" else "false")),
       ("file", FormValue.file f)] ∧
    ingestResult res = Except.ok res.bodyJson ∧
    (handleUploadV1 apiBase st (fun _ => res)).1.ingestStatus =
      some ("✅ Ingested " ++ toString res.bodyJson.records ++ " rows for \"" ++
        res.bodyJson.company ++ "\".") := by
  refine ⟨rfl, rfl, rfl, ?_, ?_⟩
  · simp [ingestResult, hok]
  · simp [handleUploadV1, hfile, ingestResult, hok, uploadSuccessStatus]

/-- C2 witness: the theorem at a concrete upload with an ok response. -/
theorem C2_witness :
    (handleUploadV1 "http://127.0.0.1:8000"
        { initialHomeState with file := some fileW } (fun _ => okIngestResp)).1.ingestStatus =
      some ("✅ Ingested " ++ toString okIngestResp.bodyJson.records ++
        " rows for \"" ++ okIngestResp.bodyJson.company ++ "\".") :=
  (C2_ingest_request_shape "http://127.0.0.1:8000" "instagram" fileW true
    okIngestResp { initialHomeState with file := some fileW } rfl rfl).2.2.2.2

/-- C3 counterexample: the user can type `50` in the top-k number input (its
`min`/`max` attributes do not constrain typed text); the `onChange` handler
stores `parseInt("50") = 50` and `handleSend` submits it unchanged, so the
submitted `top_k` does not lie between 1 and 20. -/
theorem C3_counterexample :
    topKFromInput "50" = some 50 ∧
    (handleSendV1 "http://127.0.0.1:8000" stFifty chatRespondOk).2 =
      some (chat "http://127.0.0.1:8000" "instagram" "hi" (some 50)) ∧
    ¬(topKInputMin ≤ (50 : Int) ∧ (50 : Int) ≤ topKInputMax) := by
  refine ⟨rfl, rfl, by decide⟩

/-- C3 (amended): the top-k control declares bounds `min = 1`, `max = 20`,
but the value the UI submits with a chat request is the unclamped
`parseInt(entered || "3")`: whatever integer text is entered is submitted
as-is, including values outside 1–20. -/
theorem C3_topk_unclamped (apiBase v : String) (st : HomeState)
    (respond : JsonRequest → HttpResponse ChatResponse)
    (hq : jsTrim st.query ≠ "") :
    topKInputMin = 1 ∧ topKInputMax = 20 ∧
    topKFromInput v = parseIntJS (if v = "" then "3" else v) ∧
    (handleSendV1 apiBase { st with topK := topKFromInput v } respond).2 =
      some (chat apiBase (jsTrim st.company) (jsTrim st.query) (topKFromInput v)) := by
  refine ⟨rfl, rfl, rfl, ?_⟩
  cases hres : chatResult (respond (chat apiBase (jsTrim st.company)
      (jsTrim st.query) (topKFromInput v))) with
  | ok res => simp [handleSendV1, hq, hres]
  | error msg => simp [handleSendV1, hq, hres]

/-- C3 witness: the amended theorem at the concrete entry `"7"`. -/
theorem C3_witness :
    topKInputMin = 1 ∧ topKInputMax = 20 ∧
    topKFromInput "7" = parseIntJS (if "7" = "" then "3" else "7") ∧
    (handleSendV1 "http://127.0.0.1:8000"
        { stHello with topK := topKFromInput "7" } chatRespondOk).2 =
      some (chat "http://127.0.0.1:8000" (jsTrim stHello.company)
        (jsTrim stHello.query) (topKFromInput "7")) :=
  C3_topk_unclamped "http://127.0.0.1:8000" "7" stHello chatRespondOk (by decide)

/-- C4 counterexample: on a non-ok response whose body text is empty, the
thrown `Error`'s message is that empty text, but the appended assistant
message is `"❌ Error: request failed"`, not `"❌ Error: "` followed by the
message. -/
theorem C4_counterexample :
    failChatResp.ok = false ∧ failChatResp.bodyText = "" ∧
    (handleSendV1 "http://127.0.0.1:8000" stHello chatRespondFail).1.messages =
      [userMessage "hello", errorChatMessageV1 ""] ∧
    (errorChatMessageV1 "").content ≠ "❌ Error: " ++ failChatResp.bodyText := by
  exact ⟨rfl, rfl, rfl, by decide⟩

/-- C4 (amended): on every non-ok response — of a chat or of an ingest
request — the fetch helper produces an error carrying the response body
text; every such chat failure is caught by `handleSend` (first version),
which appends an assistant message whose content is `"❌ Error: "` followed
by that text — or by `"request failed"` when the text is empty — and resets
`loading` to false; the failure never escapes the handler. -/
theorem C4_error_handling (apiBase : String) (st : HomeState)
    (respond : JsonRequest → HttpResponse ChatResponse)
    (resI : HttpResponse IngestResponse)
    (hq : jsTrim st.query ≠ "")
    (hok : (respond (chat apiBase (jsTrim st.company) (jsTrim st.query) st.topK)).ok = false)
    (hokI : resI.ok = false) :
    chatResult (respond (chat apiBase (jsTrim st.company) (jsTrim st.query) st.topK)) =
      Except.error
        (respond (chat apiBase (jsTrim st.company) (jsTrim st.query) st.topK)).bodyText ∧
    ingestResult resI = Except.error resI.bodyText ∧
    (handleSendV1 apiBase st respond).1.loading = false ∧
    (handleSendV1 apiBase st respond).1.messages =
      st.messages ++ [userMessage (jsTrim st.query),
        errorChatMessageV1
          (respond (chat apiBase (jsTrim st.company) (jsTrim st.query) st.topK)).bodyText] := by
  have h1 : chatResult (respond (chat apiBase (jsTrim st.company) (jsTrim st.query) st.topK)) =
      Except.error
        (respond (chat apiBase (jsTrim st.company) (jsTrim st.query) st.topK)).bodyText := by
    simp [chatResult, hok]
  refine ⟨h1, by simp [ingestResult, hokI], ?_, ?_⟩ <;> simp [handleSendV1, hq, h1]

/-- C4 witness: the amended theorem at a concrete failing chat request and a
concrete failing ingest response. -/
theorem C4_witness :
    ingestResult failIngestResp = Except.error failIngestResp.bodyText ∧
    (handleSendV1 "http://127.0.0.1:8000" stHello chatRespondFail).1.loading = false := by
  have h := C4_error_handling "http://127.0.0.1:8000" stHello chatRespondFail
    failIngestResp (by decide) rfl rfl
  exact ⟨h.2.1, h.2.2.1⟩

/-- C8 counterexample: at the same inputs — a pending query, a selected
file, and a non-ok response with empty body text — the two page versions
append different assistant messages and set different upload status texts,
so they are not behaviorally equivalent as claimed. -/
theorem C8_counterexample :
    (handleSendV1 "http://127.0.0.1:8000" stC8 chatRespondFail).1.messages ≠
      (handleSendV2 "http://127.0.0.1:8000" stC8 chatRespondFail).1.messages ∧
    (handleUploadV1 "http://127.0.0.1:8000" stC8 ingestRespondFail).1.ingestStatus ≠
      (handleUploadV2 "http://127.0.0.1:8000" stC8 ingestRespondFail).1.ingestStatus := by
  exact ⟨by decide, by decide⟩

/-- C8 (amended): the two page versions are behaviorally equivalent at the
API boundary — identical chat and ingest requests, identical appended
messages and status texts — whenever the network never yields a non-ok
response with empty body text; they differ only in the fallback text shown
when the thrown error message is empty. -/
theorem C8_versions_equivalent (apiBase : String) (st : HomeState)
    (respondC : JsonRequest → HttpResponse ChatResponse)
    (respondI : FormRequest → HttpResponse IngestResponse)
    (hc : ∀ req, (respondC req).ok = true ∨ (respondC req).bodyText ≠ "")
    (hi : ∀ req, (respondI req).ok = true ∨ (respondI req).bodyText ≠ "") :
    handleSendV1 apiBase st respondC = handleSendV2 apiBase st respondC ∧
    handleUploadV1 apiBase st respondI = handleUploadV2 apiBase st respondI := by
  constructor
  · by_cases hq : jsTrim st.query = ""
    · simp [handleSendV1, handleSendV2, hq]
    · cases hok : (respondC (chat apiBase (jsTrim st.company) (jsTrim st.query) st.topK)).ok
      · have hne : (respondC (chat apiBase (jsTrim st.company) (jsTrim st.query) st.topK)).bodyText ≠ "" := by
          rcases hc (chat apiBase (jsTrim st.company) (jsTrim st.query) st.topK) with h | h
          · rw [hok] at h; exact absurd h (by decide)
          · exact h
        simp [handleSendV1, handleSendV2, hq, chatResult, hok,
          errorChatMessageV1, errorChatMessageV2, hne]
      · simp [handleSendV1, handleSendV2, hq, chatResult, hok]
  · cases hfile : st.file with
    | none => simp [handleUploadV1, handleUploadV2, hfile]
    | some f =>
        cases hok : (respondI (ingestCSV apiBase (jsTrim st.company) f st.reset)).ok
        · have hne : (respondI (ingestCSV apiBase (jsTrim st.company) f st.reset)).bodyText ≠ "" := by
            rcases hi (ingestCSV apiBase (jsTrim st.company) f st.reset) with h | h
            · rw [hok] at h; exact absurd h (by decide)
            · exact h
          simp [handleUploadV1, handleUploadV2, hfile, ingestResult, hok, hne]
        · simp [handleUploadV1, handleUploadV2, hfile, ingestResult, hok]

/-- C8 witness: the amended theorem at a concrete state and a network whose
responses are ok. -/
theorem C8_witness :
    handleSendV1 "http://127.0.0.1:8000" stC8 chatRespondOk =
      handleSendV2 "http://127.0.0.1:8000" stC8 chatRespondOk ∧
    handleUploadV1 "http://127.0.0.1:8000" stC8 ingestRespondOk =
      handleUploadV2 "http://127.0.0.1:8000" stC8 ingestRespondOk :=
  C8_versions_equivalent "http://127.0.0.1:8000" stC8 chatRespondOk ingestRespondOk
    (fun _ => Or.inl rfl) (fun _ => Or.inl rfl)

/-- C9: a `chat` call that omits `top_k` sends `top_k = 3` in the JSON body,
and the chat page initializes its top-k control to 3. -/
theorem C9_default_top_k (apiBase company query : String) :
    (chat apiBase company query).body =
      Json.obj [("company", Json.str company), ("query", Json.str query),
                ("top_k", Json.num 3)] ∧
    initialHomeState.topK = some 3 :=
  ⟨rfl, rfl⟩

/-- C10: an empty or whitespace-only query makes `handleSend` return with no
network request and the state untouched; an upload attempt with no selected
file issues no request and changes nothing except `ingestStatus`, set to the
fixed prompt. -/
theorem C10_degenerate_inputs (apiBase : String) (st st2 : HomeState)
    (respondC : JsonRequest → HttpResponse ChatResponse)
    (respondI : FormRequest → HttpResponse IngestResponse)
    (hq : ∀ c ∈ st.query.data, isJsSpace c = true)
    (hf : st2.file = none) :
    handleSendV1 apiBase st respondC = (st, none) ∧
    handleUploadV1 apiBase st2 respondI =
      ({ st2 with ingestStatus := some "Please choose a CSV file first." }, none) := by
  constructor
  · simp [handleSendV1, jsTrim_eq_empty st.query hq]
  · simp [handleUploadV1, hf]

/-- C10 witness: the theorem at a whitespace query and a file-less state. -/
theorem C10_witness :
    handleSendV1 "http://127.0.0.1:8000" stWhitespace chatRespondOk =
      (stWhitespace, none) ∧
    handleUploadV1 "http://127.0.0.1:8000" initialHomeState ingestRespondOk =
      ({ initialHomeState with
          ingestStatus := some "Please choose a CSV file first." }, none) :=
  C10_degenerate_inputs "http://127.0.0.1:8000" stWhitespace initialHomeState
    chatRespondOk ingestRespondOk (by decide) rfl

/-- C5: ingestion is idempotent under content identity — re-ingesting, with
`reset = false`, any batch whose rows repeat the `(data_type, title,
content)` triples of an already-ingested batch (keywords may differ) adds
zero new records and leaves the store unchanged. -/
theorem C5_ingest_idempotent (embed : String → Vec) (s : Store)
    (rows rows2 : List Row)
    (h : ∀ r2 ∈ rows2, ∃ r1 ∈ rows, identityKey r2 = identityKey r1) :
    ingest embed (ingest embed s rows false).1 rows2 false =
      ((ingest embed s rows false).1, 0) := by
  have hcov : ∀ r2 ∈ rows2,
      identityKey r2 ∈ knownKeys (ingest embed s rows false).1 := by
    intro r2 hr2
    rcases h r2 hr2 with ⟨r1, hr1, heq⟩
    rw [heq, knownKeys_ingest]
    rcases dedupe_covers rows (knownKeys s) r1 hr1 with h1 | h1
    · exact List.mem_append_left _ h1
    · exact List.mem_append_right _ h1
  have hded := dedupe_nil_of_known rows2 _ hcov
  simp [ingest] at hded
  simp [ingest, hded]

/-- C5 witness: the theorem at the spec's worked example — the same row
re-ingested with different keywords adds nothing. -/
theorem C5_witness :
    ingest embedW (ingest embedW emptyStore [rowW] false).1 [rowW2] false =
      ((ingest embedW emptyStore [rowW] false).1, 0) :=
  C5_ingest_idempotent embedW emptyStore [rowW] [rowW2] (by
    intro r2 hr2
    rw [List.mem_singleton] at hr2
    subst hr2
    exact ⟨rowW, List.mem_singleton.2 rfl, rfl⟩)

/-- C6: after every successful mutation — a reset, or an ingestion from a
store already satisfying the invariant — the numbers of stored vectors,
chunks and metadata entries agree, and the vector at position `i` is the
embedding of the chunk at position `i`. -/
theorem C6_store_invariant (embed : String → Vec) (s : Store)
    (rows : List Row) (reset : Bool)
    (h : storeConsistent embed s) :
    storeConsistent embed (resetStore s) ∧
    storeConsistent embed (ingest embed s rows reset).1 := by
  constructor
  · exact ⟨rfl, rfl, fun i h1 _ => absurd h1 (Nat.not_lt_zero i)⟩
  · have hv := map_of_consistent embed s h
    have hm := h.2.1
    apply consistent_of_map
    · cases reset with
      | false =>
          simp [ingest, hv, List.map_append, List.map_map]
          exact fun a _ => rfl
      | true =>
          simp [ingest, emptyStore, List.map_map]
          exact fun a _ => rfl
    · cases reset with
      | false => simp [ingest, hm]
      | true => simp [ingest, emptyStore]

/-- C6 witness: the theorem at a concrete ingestion from the empty store. -/
theorem C6_witness :
    storeConsistent embedW (resetStore emptyStore) ∧
    storeConsistent embedW (ingest embedW emptyStore [rowW] false).1 :=
  C6_store_invariant embedW emptyStore [rowW] false
    ⟨rfl, rfl, fun i h1 _ => absurd h1 (Nat.not_lt_zero i)⟩

/-- C7: on the Retriever's candidate pool — ordered by similarity
descending — MMR selection with weight `λ = 1` returns exactly the plain
similarity-ranked top-k list, in the same order. -/
theorem C7_mmr_lambda_one (k : Nat) (pool : List Cand)
    (h : List.Pairwise (fun a b => b.rel ≤ a.rel) pool) :
    mmr 1 k pool = plainTopK k pool :=
  mmrSelect_one k pool [] h

/-- C7 witness: the theorem at a concrete sorted pool. -/
theorem C7_witness : mmr 1 2 poolW = plainTopK 2 poolW :=
  C7_mmr_lambda_one 2 poolW (by decide)

end ChatbotMaker
